import Mathlib

/-!
Verification of the backend-slice login endpoint.

The slice consists of four Python files:

* `schemas.py` — `LoginRequest` (email, password) and `LoginResponse`
  (jwt_token, expires_in);
* `repository.py` — `LoginRepository` whose two methods raise
  `NotImplementedError`;
* `service.py` — `LoginService.execute`, the authentication sequence:
  user lookup, three guard conditions, a last-login side effect and
  token minting;
* `handler.py` — `handle_login`, which builds a fresh `LoginService`
  per invocation and delegates to `execute`.

The service delegates to four collaborators (user lookup, last-login
update, password verification, token issuance).  We embed them as an
explicit environment of functions, the fallible ones returning
`Except`.  `LoginService.execute` is embedded as a pure function from
the environment and the request to the Python outcome (normal return
or raised exception) paired with the ordered list of collaborator
calls it performed, so that statements about call order and about
side effects never happening can be expressed.
-/

/-- `LoginRequest` from `schemas.py`: an email string and a plaintext
password string.  The schema places no constraint on either field. -/
structure LoginRequest where
  email : String
  password : String
  deriving DecidableEq, Repr

/-- `LoginResponse` from `schemas.py`: a JWT token string and an
expiry in seconds (`int` in the source, hence `Int`). -/
structure LoginResponse where
  jwt_token : String
  expires_in : Int
  deriving DecidableEq, Repr

/-- The user record read through the user-lookup collaborator, with
the three fields `service.py` touches: `id`, `password_hash`,
`is_active`. -/
structure User where
  id : String
  password_hash : String
  is_active : Bool
  deriving DecidableEq, Repr

/-- The three exception classes raised by the guard logic of
`LoginService.execute` (`service.py` lines 12–19). -/
inductive AuthError where
  | userNotFoundError
  | accountLockedError
  | invalidCredentialsError
  deriving DecidableEq, Repr

/-- Exceptions raised by collaborators, distinct classes from the
guard exceptions: the in-repo `LoginRepository` raises
`NotImplementedError`; `otherError` stands for any other exception
class a collaborator might raise. -/
inductive CollabError where
  | notImplementedError
  | otherError (code : Nat)
  deriving DecidableEq, Repr

/-- An exception propagating out of `LoginService.execute`: either one
of the service's own guard exceptions or an exception raised by a
collaborator it called. -/
inductive LoginError where
  | auth (e : AuthError)
  | collab (e : CollabError)
  deriving DecidableEq, Repr

/-- One observable call from `LoginService.execute` to a collaborator,
recorded with its arguments. -/
inductive Event where
  | lookupUser (email : String)
  | verifyPassword (plaintext hash : String)
  | updateLastLogin (user_id : String)
  | mintToken (user_id : String) (ttl : Int)
  deriving DecidableEq, Repr

/-- The four outbound collaborators of the authentication sequence
(spec §6): user lookup and last-login update may raise, password
verification and token issuance are total. -/
structure Env where
  get_user_by_email : String → Except CollabError (Option User)
  update_last_login : String → Except CollabError Unit
  verify_password : String → String → Bool
  generate_jwt : String → Int → String

/-- Shallow embedding of `LoginService.execute` (`service.py` lines
9–24).  Returns the Python outcome — a `LoginResponse` or a raised
exception — together with the ordered list of collaborator calls the
execution performed.  `if not user` on the Python value returned by
the lookup corresponds to the `none` case of the `Option`. -/
def LoginService.execute (env : Env) (request : LoginRequest) :
    Except LoginError LoginResponse × List Event :=
  match env.get_user_by_email request.email with
  | .error e => (.error (.collab e), [.lookupUser request.email])
  | .ok none => (.error (.auth .userNotFoundError), [.lookupUser request.email])
  | .ok (some user) =>
    if !user.is_active then
      (.error (.auth .accountLockedError), [.lookupUser request.email])
    else if !env.verify_password request.password user.password_hash then
      (.error (.auth .invalidCredentialsError),
        [.lookupUser request.email,
          .verifyPassword request.password user.password_hash])
    else
      match env.update_last_login user.id with
      | .error e =>
        (.error (.collab e),
          [.lookupUser request.email,
            .verifyPassword request.password user.password_hash,
            .updateLastLogin user.id])
      | .ok _ =>
        (.ok ⟨env.generate_jwt user.id 86400, 86400⟩,
          [.lookupUser request.email,
            .verifyPassword request.password user.password_hash,
            .updateLastLogin user.id,
            .mintToken user.id 86400])

/-- `LoginRepository.get_user_by_email` (`repository.py` lines 6–8):
unconditionally raises `NotImplementedError`. -/
def LoginRepository.get_user_by_email (_email : String) :
    Except CollabError (Option User) :=
  .error .notImplementedError

/-- `LoginRepository.update_last_login` (`repository.py` lines 9–11):
unconditionally raises `NotImplementedError`. -/
def LoginRepository.update_last_login (_user_id : String) :
    Except CollabError Unit :=
  .error .notImplementedError

/-- The environment obtained when the service is wired to the in-repo
`LoginRepository` (`LoginService.__init__` sets
`self.repo = LoginRepository()`); password verification and token
issuance remain external parameters. -/
def repoEnv (vp : String → String → Bool) (gj : String → Int → String) : Env :=
  ⟨LoginRepository.get_user_by_email, LoginRepository.update_last_login, vp, gj⟩

/-- `handle_login` (`handler.py` lines 9–11): constructs a fresh
`LoginService` (which constructs a fresh `LoginRepository`) and
delegates to `execute`.  Neither class carries mutable fields, so the
invocation is a pure function of the environment and the request. -/
def handle_login (env : Env) (request : LoginRequest) :
    Except LoginError LoginResponse × List Event :=
  LoginService.execute env request

/-- A batch of consecutive invocations of `handle_login`.  Each call
builds its own fresh service and repository, so no state is threaded
from one invocation to the next. -/
def handle_batch (env : Env) (requests : List LoginRequest) :
    List (Except LoginError LoginResponse × List Event) :=
  match requests with
  | [] => []
  | r :: rs => handle_login env r :: handle_batch env rs

/-- A sample active user used for concrete witnesses. -/
def user1 : User := ⟨"u1", "H", true⟩

/-- A sample locked (inactive) user used for concrete witnesses. -/
def user2 : User := ⟨"u2", "H", false⟩

/-- A concrete environment for witnesses: two known users, a
last-login update that succeeds, a password check accepting exactly
`"pw"` against hash `"H"`, and a token primitive returning a
non-empty string. -/
def env1 : Env :=
  ⟨fun e => if e = "a@x" then .ok (some user1)
    else if e = "b@x" then .ok (some user2)
    else .ok none,
    fun _ => .ok (),
    fun p h => p == "pw" && h == "H",
    fun uid _ => "jwt-" ++ uid⟩

/-- Sample requests used in concrete witnesses. -/
def req1 : LoginRequest := ⟨"a@x", "pw"⟩

/-- Request for the locked user. -/
def req2 : LoginRequest := ⟨"b@x", "pw"⟩

/-- Request for an unknown email. -/
def req3 : LoginRequest := ⟨"zz", "pw"⟩

/-- Request for the active user with a wrong password. -/
def req4 : LoginRequest := ⟨"a@x", "bad"⟩

/-- C2: whenever the user-lookup collaborator returns no user record
for the request's email, `LoginService.execute` raises
`UserNotFoundError` and returns no result. -/
theorem execute_user_not_found (env : Env) (request : LoginRequest)
    (hfind : env.get_user_by_email request.email = .ok none) :
    (LoginService.execute env request).1 = .error (.auth .userNotFoundError) := by
  simp [LoginService.execute, hfind]

/-- Witness for C2: on the concrete environment `env1`, the unknown
email of `req3` yields `UserNotFoundError`. -/
theorem execute_user_not_found_witness :
    (LoginService.execute env1 req3).1 = .error (.auth .userNotFoundError) :=
  execute_user_not_found env1 req3 rfl

/-- C3: whenever the lookup finds a user whose `is_active` flag is
false, `LoginService.execute` raises `AccountLockedError` — whatever
password the request carries — and the password-verification
primitive is never consulted. -/
theorem execute_account_locked (env : Env) (request : LoginRequest) (user : User)
    (hfind : env.get_user_by_email request.email = .ok (some user))
    (hinactive : user.is_active = false) :
    (LoginService.execute env request).1 = .error (.auth .accountLockedError) ∧
      ∀ p h, Event.verifyPassword p h ∉ (LoginService.execute env request).2 := by
  simp [LoginService.execute, hfind, hinactive]

/-- Witness for C3: on `env1`, the locked user `user2` found at
`req2.email` yields `AccountLockedError` and no password check. -/
theorem execute_account_locked_witness :
    (LoginService.execute env1 req2).1 = .error (.auth .accountLockedError) ∧
      ∀ p h, Event.verifyPassword p h ∉ (LoginService.execute env1 req2).2 :=
  execute_account_locked env1 req2 user2 rfl rfl

/-- C4: whenever the lookup finds an active user and the
password-verification primitive rejects the supplied password against
the stored hash, `LoginService.execute` raises
`InvalidCredentialsError`. -/
theorem execute_invalid_credentials (env : Env) (request : LoginRequest) (user : User)
    (hfind : env.get_user_by_email request.email = .ok (some user))
    (hactive : user.is_active = true)
    (hverify : env.verify_password request.password user.password_hash = false) :
    (LoginService.execute env request).1 = .error (.auth .invalidCredentialsError) := by
  simp [LoginService.execute, hfind, hactive, hverify]

/-- Witness for C4: on `env1`, the active user `user1` with the wrong
password of `req4` yields `InvalidCredentialsError`. -/
theorem execute_invalid_credentials_witness :
    (LoginService.execute env1 req4).1 = .error (.auth .invalidCredentialsError) :=
  execute_invalid_credentials env1 req4 user1 rfl rfl rfl

/-- C5: whenever the lookup finds an active user, the password check
accepts, the last-login update succeeds, and the external token
primitive returns a non-empty string, `LoginService.execute` returns
a `LoginResponse` with `expires_in = 86400` and a non-empty token. -/
theorem execute_success (env : Env) (request : LoginRequest) (user : User)
    (hfind : env.get_user_by_email request.email = .ok (some user))
    (hactive : user.is_active = true)
    (hverify : env.verify_password request.password user.password_hash = true)
    (hupdate : env.update_last_login user.id = .ok ())
    (htoken : env.generate_jwt user.id 86400 ≠ "") :
    ∃ resp, (LoginService.execute env request).1 = .ok resp ∧
      resp.expires_in = 86400 ∧ resp.jwt_token ≠ "" := by
  refine ⟨⟨env.generate_jwt user.id 86400, 86400⟩, ?_, rfl, htoken⟩
  simp [LoginService.execute, hfind, hactive, hverify, hupdate]

/-- Witness for C5: on `env1`, the active user `user1` with the
matching password of `req1` logs in with expiry 86400 and a non-empty
token. -/
theorem execute_success_witness :
    ∃ resp, (LoginService.execute env1 req1).1 = .ok resp ∧
      resp.expires_in = 86400 ∧ resp.jwt_token ≠ "" :=
  execute_success env1 req1 user1 rfl rfl rfl rfl (by decide)

/-- C1: `LoginService.execute` applies the three guards in the fixed
order existence → active-status → password-match and short-circuits
on the first failure: a response is produced only when all three
guards have passed, a `UserNotFoundError` arises exactly from a
failed lookup (with no later collaborator consulted), an
`AccountLockedError` arises from a found but inactive user (before
any password check), and an `InvalidCredentialsError` arises from an
active user with a rejected password. -/
theorem execute_guard_order (env : Env) (request : LoginRequest) :
    (∀ resp, (LoginService.execute env request).1 = .ok resp →
      ∃ user, env.get_user_by_email request.email = .ok (some user) ∧
        user.is_active = true ∧
        env.verify_password request.password user.password_hash = true) ∧
    ((LoginService.execute env request).1 = .error (.auth .userNotFoundError) →
      env.get_user_by_email request.email = .ok none ∧
      (LoginService.execute env request).2 = [.lookupUser request.email]) ∧
    ((LoginService.execute env request).1 = .error (.auth .accountLockedError) →
      ∃ user, env.get_user_by_email request.email = .ok (some user) ∧
        user.is_active = false ∧
        (LoginService.execute env request).2 = [.lookupUser request.email]) ∧
    ((LoginService.execute env request).1 = .error (.auth .invalidCredentialsError) →
      ∃ user, env.get_user_by_email request.email = .ok (some user) ∧
        user.is_active = true ∧
        env.verify_password request.password user.password_hash = false ∧
        (LoginService.execute env request).2 =
          [.lookupUser request.email,
            .verifyPassword request.password user.password_hash]) := by
  cases hfind : env.get_user_by_email request.email with
  | error e => simp [LoginService.execute, hfind]
  | ok ou =>
    cases ou with
    | none => simp [LoginService.execute, hfind]
    | some user =>
      cases hact : user.is_active with
      | false => simp [LoginService.execute, hfind, hact]
      | true =>
        cases hver : env.verify_password request.password user.password_hash with
        | false => simp [LoginService.execute, hfind, hact, hver]
        | true =>
          cases hupd : env.update_last_login user.id with
          | error e => simp [LoginService.execute, hfind, hact, hver, hupd]
          | ok u => simp [LoginService.execute, hfind, hact, hver, hupd]

/-- Witness for C1: the guard characterisation instantiated at the
concrete environment `env1` and the successful request `req1`. -/
theorem execute_guard_order_witness :
    (∀ resp, (LoginService.execute env1 req1).1 = .ok resp →
      ∃ user, env1.get_user_by_email req1.email = .ok (some user) ∧
        user.is_active = true ∧
        env1.verify_password req1.password user.password_hash = true) ∧
    ((LoginService.execute env1 req1).1 = .error (.auth .userNotFoundError) →
      env1.get_user_by_email req1.email = .ok none ∧
      (LoginService.execute env1 req1).2 = [.lookupUser req1.email]) ∧
    ((LoginService.execute env1 req1).1 = .error (.auth .accountLockedError) →
      ∃ user, env1.get_user_by_email req1.email = .ok (some user) ∧
        user.is_active = false ∧
        (LoginService.execute env1 req1).2 = [.lookupUser req1.email]) ∧
    ((LoginService.execute env1 req1).1 = .error (.auth .invalidCredentialsError) →
      ∃ user, env1.get_user_by_email req1.email = .ok (some user) ∧
        user.is_active = true ∧
        env1.verify_password req1.password user.password_hash = false ∧
        (LoginService.execute env1 req1).2 =
          [.lookupUser req1.email,
            .verifyPassword req1.password user.password_hash]) :=
  execute_guard_order env1 req1

/-- C6: on every execution failing with one of the three guard
exceptions, the last-login-update side effect is never invoked, and
on every successful execution it is invoked exactly once, before
token minting: the trace is exactly lookup, verify, update, mint. -/
theorem execute_update_discipline (env : Env) (request : LoginRequest) :
    (∀ e, (LoginService.execute env request).1 = .error (.auth e) →
      ∀ uid, Event.updateLastLogin uid ∉ (LoginService.execute env request).2) ∧
    (∀ resp, (LoginService.execute env request).1 = .ok resp →
      ∃ user : User, (LoginService.execute env request).2 =
        [.lookupUser request.email,
          .verifyPassword request.password user.password_hash,
          .updateLastLogin user.id,
          .mintToken user.id 86400]) := by
  cases hfind : env.get_user_by_email request.email with
  | error e => simp [LoginService.execute, hfind]
  | ok ou =>
    cases ou with
    | none => simp [LoginService.execute, hfind]
    | some user =>
      cases hact : user.is_active with
      | false => simp [LoginService.execute, hfind, hact]
      | true =>
        cases hver : env.verify_password request.password user.password_hash with
        | false => simp [LoginService.execute, hfind, hact, hver]
        | true =>
          cases hupd : env.update_last_login user.id with
          | error e => simp [LoginService.execute, hfind, hact, hver, hupd]
          | ok u =>
            simp only [LoginService.execute, hfind, hact, hver, hupd]
            exact ⟨by simp, fun resp _ => ⟨user, by simp⟩⟩

/-- Witness for C6: the update discipline instantiated at `env1` and
the successful request `req1`. -/
theorem execute_update_discipline_witness :
    (∀ e, (LoginService.execute env1 req1).1 = .error (.auth e) →
      ∀ uid, Event.updateLastLogin uid ∉ (LoginService.execute env1 req1).2) ∧
    (∀ resp, (LoginService.execute env1 req1).1 = .ok resp →
      ∃ user : User, (LoginService.execute env1 req1).2 =
        [.lookupUser req1.email,
          .verifyPassword req1.password user.password_hash,
          .updateLastLogin user.id,
          .mintToken user.id 86400]) :=
  execute_update_discipline env1 req1

/-- C7: on every successful execution the ttl passed to the
token-issuance primitive equals the `expires_in` field of the
returned response, and both equal 86400. -/
theorem execute_ttl_equals_expiry (env : Env) (request : LoginRequest)
    (resp : LoginResponse)
    (hok : (LoginService.execute env request).1 = .ok resp) :
    resp.expires_in = 86400 ∧
    (∃ uid, Event.mintToken uid 86400 ∈ (LoginService.execute env request).2) ∧
    (∀ uid ttl, Event.mintToken uid ttl ∈ (LoginService.execute env request).2 →
      ttl = resp.expires_in) := by
  cases hfind : env.get_user_by_email request.email with
  | error e => simp [LoginService.execute, hfind] at hok
  | ok ou =>
    cases ou with
    | none => simp [LoginService.execute, hfind] at hok
    | some user =>
      cases hact : user.is_active with
      | false => simp [LoginService.execute, hfind, hact] at hok
      | true =>
        cases hver : env.verify_password request.password user.password_hash with
        | false => simp [LoginService.execute, hfind, hact, hver] at hok
        | true =>
          cases hupd : env.update_last_login user.id with
          | error e => simp [LoginService.execute, hfind, hact, hver, hupd] at hok
          | ok u =>
            simp [LoginService.execute, hfind, hact, hver, hupd] at hok ⊢
            subst hok
            simp

/-- Witness for C7: at `env1` and `req1` the returned response is
`⟨"jwt-u1", 86400⟩` and the mint event carries ttl 86400. -/
theorem execute_ttl_equals_expiry_witness :
    (⟨"jwt-u1", 86400⟩ : LoginResponse).expires_in = 86400 ∧
    (∃ uid, Event.mintToken uid 86400 ∈ (LoginService.execute env1 req1).2) ∧
    (∀ uid ttl, Event.mintToken uid ttl ∈ (LoginService.execute env1 req1).2 →
      ttl = (⟨"jwt-u1", 86400⟩ : LoginResponse).expires_in) :=
  execute_ttl_equals_expiry env1 req1 ⟨"jwt-u1", 86400⟩ rfl

/-- C8: both in-repo repository methods raise `NotImplementedError`
on every call, so the login sequence wired to the in-repo
`LoginRepository` propagates `NotImplementedError` from the very
first lookup — before any of the three guards is evaluated — for
every request and every choice of the external primitives. -/
theorem repository_stubs_fail (vp : String → String → Bool)
    (gj : String → Int → String) (request : LoginRequest) :
    (∀ email, LoginRepository.get_user_by_email email =
      .error .notImplementedError) ∧
    (∀ uid, LoginRepository.update_last_login uid =
      .error .notImplementedError) ∧
    LoginService.execute (repoEnv vp gj) request =
      (.error (.collab .notImplementedError), [.lookupUser request.email]) := by
  refine ⟨fun _ => rfl, fun _ => rfl, ?_⟩
  simp [LoginService.execute, repoEnv, LoginRepository.get_user_by_email]

/-- Witness for C8: concrete instantiation at `req1` with concrete
external primitives. -/
theorem repository_stubs_fail_witness :
    (∀ email, LoginRepository.get_user_by_email email =
      .error .notImplementedError) ∧
    (∀ uid, LoginRepository.update_last_login uid =
      .error .notImplementedError) ∧
    LoginService.execute (repoEnv (fun _ _ => true) (fun _ _ => "t")) req1 =
      (.error (.collab .notImplementedError), [.lookupUser req1.email]) :=
  repository_stubs_fail (fun _ _ => true) (fun _ _ => "t") req1

/-- Helper: a batch of invocations is the pointwise image of
`handle_login`, since no state is threaded between invocations. -/
theorem handle_batch_eq_map (env : Env) (requests : List LoginRequest) :
    handle_batch env requests = requests.map (handle_login env) := by
  induction requests with
  | nil => rfl
  | cons r rs ih => simp [handle_batch, ih]

/-- C9: `handle_login` is a pure function of the collaborator
behaviours and the request — each invocation builds a fresh
`LoginService`/`LoginRepository` and simply delegates to `execute` —
so the outcome of an invocation does not depend on any prior
invocations in a batch. -/
theorem handle_login_independent (env : Env) (prior : List LoginRequest)
    (request : LoginRequest) :
    (handle_batch env (prior ++ [request])).getLast? =
      some (handle_login env request) ∧
    handle_login env request = LoginService.execute env request := by
  refine ⟨?_, rfl⟩
  simp [handle_batch_eq_map]

/-- Witness for C9: the invocation for `req1` gives the same outcome
after the batch `[req2, req3]` as alone. -/
theorem handle_login_independent_witness :
    (handle_batch env1 ([req2, req3] ++ [req1])).getLast? =
      some (handle_login env1 req1) ∧
    handle_login env1 req1 = LoginService.execute env1 req1 :=
  handle_login_independent env1 [req2, req3] req1

/-- C10: for a request whose email or password is the empty string,
`LoginService.execute` still begins by invoking the user-lookup
collaborator — no component rejects empty credentials before the
sequence runs (the `LoginRequest` schema admits empty strings in
both fields). -/
theorem execute_no_nonempty_precondition (env : Env) (request : LoginRequest)
    (_hempty : request.email = "" ∨ request.password = "") :
    (LoginService.execute env request).2.head? =
      some (.lookupUser request.email) := by
  cases hfind : env.get_user_by_email request.email with
  | error e => simp [LoginService.execute, hfind]
  | ok ou =>
    cases ou with
    | none => simp [LoginService.execute, hfind]
    | some user =>
      cases hact : user.is_active with
      | false => simp [LoginService.execute, hfind, hact]
      | true =>
        cases hver : env.verify_password request.password user.password_hash with
        | false => simp [LoginService.execute, hfind, hact, hver]
        | true =>
          cases hupd : env.update_last_login user.id with
          | error e => simp [LoginService.execute, hfind, hact, hver, hupd]
          | ok u => simp [LoginService.execute, hfind, hact, hver, hupd]

/-- Witness for C10: the fully empty request still reaches the lookup
collaborator on `env1`. -/
theorem execute_no_nonempty_precondition_witness :
    (LoginService.execute env1 ⟨"", ""⟩).2.head? =
      some (.lookupUser (⟨"", ""⟩ : LoginRequest).email) :=
  execute_no_nonempty_precondition env1 ⟨"", ""⟩ (Or.inl rfl)
